import Mathlib

/-!
Verification of the MLA attention / MoE / configuration code of the Gaudi
backend model definitions (flash_deepseek_v3_modeling.py, flash_neox_modeling.py,
flash_starcoder2_modeling.py) and of the integration-test docker launcher
(integration-tests/fixtures/gaudi/service.py).

Tensors are embedded over exact rationals; the last dimension of a tensor is a
function `Fin n → ℚ`.  External framework primitives that the modeling files
only call (flash attention kernel, paged MLA kernel, RMS norm, rotary kernel,
the distributed all-reduce) are either modelled from the specification or kept
as abstract function parameters; everything the modeling files themselves
compute is translated directly.
-/

namespace TGI

/-- A per-token vector: the last dimension of a tensor, over exact rationals. -/
abbrev Vec (n : ℕ) : Type := Fin n → ℚ

/-- A weight matrix stored as (output, input), as the linear layers store it. -/
abbrev Mat (m n : ℕ) : Type := Fin m → Fin n → ℚ

/-- Dot product of two vectors. -/
def dot {n : ℕ} (u v : Vec n) : ℚ := ∑ i, u i * v i

/-- Application of a linear layer with weight of shape (out, in): `y = W x`. -/
def matVec {m n : ℕ} (W : Mat m n) (x : Vec n) : Vec m := fun i => dot (W i) x

/-- First `a` components of a vector of width `a + b` (`torch.split`, left part). -/
def takeFirst {a b : ℕ} (v : Vec (a + b)) : Vec a := fun i => v (Fin.castAdd b i)

/-- Last `b` components of a vector of width `a + b` (`torch.split`, right part). -/
def dropFirst {a b : ℕ} (v : Vec (a + b)) : Vec b := fun i => v (Fin.natAdd a i)

/-- Zero padding on the right to width `m`, the semantics of
`torch.nn.functional.pad(v, (0, m - d), value=0)` when `m ≥ d`. -/
def padZero {d : ℕ} (v : Vec d) (m : ℕ) : Vec m :=
  fun i => if h : (i : ℕ) < d then v ⟨i, h⟩ else 0

/-- Row-major flattening of per-head vectors, the semantics of
`x.reshape(-1, num_heads * width)` applied to one token. -/
def flattenHeads {n V : ℕ} (x : Fin n → Vec V) : Vec (n * V) :=
  fun m => x (Fin.divNat m) (Fin.modNat m)

/-- Index bound for the pairwise interleave permutation of
`flash_deepseek_v3_modeling.py` lines 336-346. -/
theorem interleave_index_lt {d k : ℕ} (hk : k < d) :
    2 * (k % (d / 2)) + k / (d / 2) < d := by
  rcases Nat.eq_zero_or_pos (d / 2) with hm | hm
  · have hk0 : k = 0 := by omega
    subst hk0
    simp [hm]
    omega
  · have h1 := Nat.div_add_mod k (d / 2)
    have h2 : k % (d / 2) < d / 2 := Nat.mod_lt _ hm
    rcases Nat.lt_or_ge (k / (d / 2)) 2 with hq | hq
    · omega
    · have h3 : d / 2 * 2 ≤ d / 2 * (k / (d / 2)) := Nat.mul_le_mul_left _ hq
      have h5 : d / 2 * (k / (d / 2)) = d / 2 * 2 := by omega
      have h6 : k / (d / 2) = 2 := Nat.eq_of_mul_eq_mul_left hm h5
      omega

/-- The reshuffle `x.view(B, h, d // 2, 2).transpose(2, 3).reshape(B, h, d)`
performed on the rotary subspaces (lines 336-346): component `k` of the result
is component `2 * (k % (d / 2)) + k / (d / 2)` of the input. -/
def interleaveHalves {d : ℕ} (v : Vec d) : Vec d :=
  fun k => v ⟨2 * ((k : ℕ) % (d / 2)) + (k : ℕ) / (d / 2), interleave_index_lt k.isLt⟩

/-- Modelled from the spec: the dense flash attention kernel (`attention`,
imported from text_generation_server.layers.attention, not under src/):
softmax attention with a causal mask over one sequence of `B` new tokens,
uniform head width `d` across query, key and value.  `e` stands for the
exponential function of the softmax. -/
def denseAttention {B n d : ℕ} (e : ℚ → ℚ) (scale : ℚ)
    (q k v : Fin B → Fin n → Vec d) : Fin B → Fin n → Vec d :=
  fun i h j =>
    (∑ t, if t ≤ i then e (scale * dot (q i h) (k t h)) * v t h j else 0) /
    (∑ t, if t ≤ i then e (scale * dot (q i h) (k t h)) else 0)

/-- Modelled from the spec: the paged latent attention kernel
(`paged_attention_mla`, not under src/): each head's query of width
`L + rope` is scored against the cached latent entries, and the weighted sum is
taken over the first `L` components of the entries (the compressed value part).
`e` stands for the exponential function of the softmax. -/
def pagedAttentionMla {n L rope : ℕ} (e : ℚ → ℚ) (scale : ℚ)
    (q : Fin n → Vec (L + rope)) (cache : List (Vec (L + rope))) : Fin n → Vec L :=
  fun h j =>
    ((cache.map (fun c => e (scale * dot (q h) c) * c (Fin.castAdd rope j))).sum) /
    ((cache.map (fun c => e (scale * dot (q h) c))).sum)

/-- Dimensions of one DeepseekV3Attention module (one shard).  `qdim` is the
width of `hidden_states_or_q_c`, the input of the selected query projection. -/
structure MLADims where
  hidden : ℕ
  loraRank : ℕ
  nope : ℕ
  rope : ℕ
  vDim : ℕ
  heads : ℕ
  qdim : ℕ

/-- Weights and external collaborators of one DeepseekV3Attention module.
`qPipe` is `hidden_states_or_q_c` of lines 311-314: the identity when
`q_lora_rank is None`, otherwise `q_a_layernorm ∘ q_a_proj` (both external
layers).  `qProjW` is the selected query projection (`q_proj` or `q_b_proj`)
viewed per head as in line 328.  `kv_a_layernorm` is the external FastRMSNorm;
it is kept abstract.  `kvBProjW h` is the block of rows of the `kv_b_proj`
weight belonging to head `h` (the `view` of line 263). -/
structure MLAWeights (D : MLADims) where
  qPipe : Vec D.hidden → Vec D.qdim
  qProjW : Fin D.heads → Mat (D.nope + D.rope) D.qdim
  kvAProjW : Mat (D.loraRank + D.rope) D.hidden
  kv_a_layernorm : Vec D.loraRank → Vec D.loraRank
  kvBProjW : Fin D.heads → Mat (D.nope + D.vDim) D.loraRank
  oProjW : Mat D.hidden (D.heads * D.vDim)
  softmaxScale : ℚ

/-- Field `self.W_UK_T` of lines 262-274: the key up-projection factor, laid out as
(heads, nope, loraRank); entry `(h, p, l)` is entry `(h * (nope + vDim) + p, l)`
of the `kv_b_proj` weight. -/
def W_UK_T (D : MLADims) (kvB : Fin D.heads → Mat (D.nope + D.vDim) D.loraRank) :
    Fin D.heads → Fin D.nope → Fin D.loraRank → ℚ :=
  fun h p l => kvB h (Fin.castAdd D.vDim p) l

/-- Field `self.W_UV` of lines 262-272: the value up-projection factor, laid out as
(heads, loraRank, vDim); entry `(h, l, j)` is entry
`(h * (nope + vDim) + nope + j, l)` of the `kv_b_proj` weight. -/
def W_UV (D : MLADims) (kvB : Fin D.heads → Mat (D.nope + D.vDim) D.loraRank) :
    Fin D.heads → Fin D.loraRank → Fin D.vDim → ℚ :=
  fun h l j => kvB h (Fin.natAdd D.nope j) l

/-- Method `_q_proj_and_k_up_proj` (lines 276-289): project, split into nope/rope,
and multiply the nope part of each head by `W_UK_T` of that head. -/
def q_proj_and_k_up_proj (D : MLADims) (W : MLAWeights D) (x : Vec D.qdim) :
    (Fin D.heads → Vec D.loraRank) × (Fin D.heads → Vec D.rope) :=
  (fun h l => ∑ p, takeFirst (matVec (W.qProjW h) x) p * W_UK_T D W.kvBProjW h p l,
   fun h => dropFirst (matVec (W.qProjW h) x))

/-- Method `_v_up_proj_and_o_proj` (lines 291-298): multiply each head by `W_UV`,
flatten the heads and apply the output projection. -/
def v_up_proj_and_o_proj (D : MLADims) (W : MLAWeights D)
    (x : Fin D.heads → Vec D.loraRank) : Vec D.hidden :=
  matVec W.oProjW
    (flattenHeads (fun h j => ∑ l, x h l * W_UV D W.kvBProjW h l j))

/-- The arguments of one `kv_cache.store` call (lines 355-360).  The MLA module
always passes `value=None`; the `values` field records exactly the `value`
argument passed. -/
structure StoreCall (w : ℕ) where
  keys : List (Vec w)
  values : Option (List (Vec w))

/-- The observable result of one `DeepseekV3Attention.forward` call: the output
hidden states, the cache store it performed, and the softmax scale it handed to
the attention kernel it dispatched to. -/
structure AttnOut (hidden w B : ℕ) where
  output : Fin B → Vec hidden
  store : StoreCall w
  scaleUsed : ℚ

/-- The prefill branch of `DeepseekV3Attention.forward` (lines 362-403):
reconstruct full per-head keys and values from the normalized latent via
`kv_b_proj` (lines 363-371), overwrite the query's rotary subspace with the
rotated one and assemble the key (lines 372-375), pad query/key/value to the
common head width (lines 377-387), run the dense kernel (lines 390-398), drop
the padding (line 399) and apply the output projection (lines 401-403). -/
def prefillBranch (D : MLADims) (W : MLAWeights D) (e : ℚ → ℚ) (B : ℕ)
    (kv_c_normed : Fin B → Vec D.loraRank)
    (queryFull : Fin B → Fin D.heads → Vec (D.nope + D.rope))
    (query_pe : Fin B → Fin D.heads → Vec D.rope)
    (key_pe_r : Fin B → Vec D.rope) : Fin B → Vec D.hidden :=
  let kv : Fin B → Fin D.heads → Vec (D.nope + D.vDim) :=
    fun i h => matVec (W.kvBProjW h) (kv_c_normed i)
  let value : Fin B → Fin D.heads → Vec D.vDim := fun i h => dropFirst (kv i h)
  let query : Fin B → Fin D.heads → Vec (D.nope + D.rope) :=
    fun i h => Fin.append (takeFirst (queryFull i h)) (query_pe i h)
  let key : Fin B → Fin D.heads → Vec (D.nope + D.rope) :=
    fun i h => Fin.append (takeFirst (kv i h)) (key_pe_r i)
  let headPad : ℕ := max (D.nope + D.rope) D.vDim
  let attnOut := denseAttention e W.softmaxScale
    (fun i h => padZero (query i h) headPad)
    (fun i h => padZero (key i h) headPad)
    (fun i h => padZero (value i h) headPad)
  let attnTrunc : Fin B → Fin D.heads → Vec D.vDim :=
    fun i h j => attnOut i h (Fin.castLE (le_max_right (D.nope + D.rope) D.vDim) j)
  fun i => matVec W.oProjW (flattenHeads (attnTrunc i))

/-- The decode branch of `DeepseekV3Attention.forward` (lines 404-418): build
the latent-space query from `_q_proj_and_k_up_proj`'s nope part and the
rotated rotary part (line 406), run the paged kernel against the compressed
cache (lines 407-416), then `_v_up_proj_and_o_proj` (line 417). -/
def decodeBranch (D : MLADims) (W : MLAWeights D) (e : ℚ → ℚ) (B : ℕ)
    (hqc : Fin B → Vec D.qdim)
    (query_pe : Fin B → Fin D.heads → Vec D.rope)
    (newCache : List (Vec (D.loraRank + D.rope))) : Fin B → Vec D.hidden :=
  let ql_nope : Fin B → Fin D.heads → Vec D.loraRank :=
    fun i h => (q_proj_and_k_up_proj D W (hqc i)).1 h
  let query : Fin B → Fin D.heads → Vec (D.loraRank + D.rope) :=
    fun i h => Fin.append (ql_nope i h) (query_pe i h)
  let attnOut : Fin B → Fin D.heads → Vec D.loraRank :=
    fun i => pagedAttentionMla e W.softmaxScale (query i) newCache
  fun i => v_up_proj_and_o_proj D W (attnOut i)

/-- Method `DeepseekV3Attention.forward` (lines 300-418) for one sequence.
`B` new tokens arrive with `priorCache` latent entries already stored for the
sequence; `rot pos` is the external rotary kernel at absolute position `pos`
(the cos/sin tables), applied identically to the query and key rotary
subspaces; `e` is the exponential of the spec-modelled attention kernels.
`cuSeqlenPrefill` is true when `cu_seqlen_prefill is not None`. -/
def attnForward (D : MLADims) (W : MLAWeights D) (e : ℚ → ℚ)
    (rot : ℕ → Vec D.rope → Vec D.rope) (B : ℕ)
    (hidden_states : Fin B → Vec D.hidden) (cuSeqlenPrefill : Bool)
    (priorCache : List (Vec (D.loraRank + D.rope))) :
    AttnOut D.hidden (D.loraRank + D.rope) B :=
  -- lines 311-314
  let hqc : Fin B → Vec D.qdim := fun i => W.qPipe (hidden_states i)
  -- lines 316-319
  let ckv : Fin B → Vec (D.loraRank + D.rope) :=
    fun i => matVec W.kvAProjW (hidden_states i)
  let key_pe : Fin B → Vec D.rope := fun i => dropFirst (ckv i)
  -- line 322
  let kv_c_normed : Fin B → Vec D.loraRank :=
    fun i => W.kv_a_layernorm (takeFirst (ckv i))
  -- lines 325-333: both branches apply the same selected projection; the
  -- prefill branch keeps the per-head split, the decode branch instead calls
  -- `_q_proj_and_k_up_proj` (whose rope component is the same split)
  let queryFull : Fin B → Fin D.heads → Vec (D.nope + D.rope) :=
    fun i h => matVec (W.qProjW h) (hqc i)
  -- lines 335-347: interleave the rotary halves and apply the rotary kernel
  let query_pe : Fin B → Fin D.heads → Vec D.rope :=
    fun i h => rot (priorCache.length + i) (interleaveHalves (dropFirst (queryFull i h)))
  let key_pe_r : Fin B → Vec D.rope :=
    fun i => rot (priorCache.length + i) (interleaveHalves (key_pe i))
  -- lines 348-360: concatenate and store the latent; `value=None`
  let latent : Fin B → Vec (D.loraRank + D.rope) :=
    fun i => Fin.append (kv_c_normed i) (key_pe_r i)
  let storeCall : StoreCall (D.loraRank + D.rope) := ⟨List.ofFn latent, none⟩
  if cuSeqlenPrefill then
    ⟨prefillBranch D W e B kv_c_normed queryFull query_pe key_pe_r,
      storeCall, W.softmaxScale⟩
  else
    ⟨decodeBranch D W e B hqc query_pe (priorCache ++ List.ofFn latent),
      storeCall, W.softmaxScale⟩

/-- The Python exception kinds raised by the modeling files. -/
inductive PyErr where
  | valueError : String → PyErr
  | notImplementedError : String → PyErr
deriving DecidableEq

/-- Field `self.head_size` of line 181: the query/key head width. -/
def headSize (nope rope : ℕ) : ℕ := nope + rope

/-- Field `self.head_pad_size` of line 183: the common head width of the dense
attention kernel. -/
def headPadSize (nope rope v : ℕ) : ℕ := max (headSize nope rope) v

/-- Field `self.softmax_scale` of line 189.  `invSqrtHeadSize` stands for the float
`self.head_size**-0.5`. -/
def mkSoftmaxScale (invSqrtHeadSize mscale : ℚ) : ℚ := invSqrtHeadSize * mscale * mscale

/-- Width of the padded query of line 379-381:
`F.pad(query, (0, head_pad_size - head_size))` appends that many zeros. -/
def paddedQueryWidth (nope rope v : ℕ) : ℕ :=
  headSize nope rope + (headPadSize nope rope v - headSize nope rope)

/-- Width of the padded key of lines 382-384. -/
def paddedKeyWidth (nope rope v : ℕ) : ℕ :=
  headSize nope rope + (headPadSize nope rope v - headSize nope rope)

/-- Width of the padded value of lines 385-387:
`F.pad(value, (0, head_pad_size - value_head_size))`. -/
def paddedValueWidth (nope rope v : ℕ) : ℕ := v + (headPadSize nope rope v - v)

/-- The scalar fields a DeepseekV3Attention instance ends up with. -/
structure DeepseekV3AttentionData where
  num_heads : ℕ
  head_size : ℕ
  head_pad_size : ℕ
  softmax_scale : ℚ
  num_key_value_heads : ℕ
deriving DecidableEq

/-- The error message of lines 192-195 (also lines 114-117 of
flash_neox_modeling.py and 197-200 of flash_starcoder2_modeling.py). -/
def headsDivisibilityMsg : String :=
  "num_heads must be divisible by num_shards"

/-- The scalar part of `DeepseekV3Attention.__init__` (lines 166-199):
head sizes and softmax scale are computed first (lines 175-189), then the
shard divisibility of the configured head count is checked (lines 191-195) and
the per-shard head counts are taken.  `invSqrtHeadSize` stands for the float
`self.head_size**-0.5` and `mscale` for the external
`get_mscale(self.rotary_emb.scaling_factor, self.rotary_emb.mscale_all_dim)`. -/
def DeepseekV3Attention.mkData (num_attention_heads num_key_value_heads
    nope rope vDim : ℕ) (invSqrtHeadSize mscale : ℚ) (numShards : ℕ) :
    Except PyErr DeepseekV3AttentionData :=
  let head_size := nope + rope
  let head_pad_size := max head_size vDim
  let softmax_scale := mkSoftmaxScale invSqrtHeadSize mscale
  if num_attention_heads % numShards ≠ 0 then
    Except.error (PyErr.valueError headsDivisibilityMsg)
  else
    Except.ok
      { num_heads := num_attention_heads / numShards
        head_size := head_size
        head_pad_size := head_pad_size
        softmax_scale := softmax_scale
        num_key_value_heads := num_key_value_heads / numShards }

/-- The scalar fields a FlashNeoxAttention instance ends up with. -/
structure FlashNeoxAttentionData where
  num_heads : ℕ
  head_size : ℕ
  rotary_dim : ℕ
  softmax_scale : ℚ
deriving DecidableEq

/-- The scalar part of `FlashNeoxAttention.__init__`
(flash_neox_modeling.py lines 101-136): head size and rotary dim are computed
(lines 107-111), the shard divisibility is checked (lines 113-117), then the
per-shard head count and the softmax scale are set.  `invSqrtHeadSize` stands
for the float `self.head_size ** (-0.5)`. -/
def FlashNeoxAttention.mkData (num_attention_heads hidden_size : ℕ)
    (rotary_pct : ℚ) (invSqrtHeadSize : ℚ) (numShards : ℕ) :
    Except PyErr FlashNeoxAttentionData :=
  let head_size := hidden_size / num_attention_heads
  let rotary_dim := (⌊rotary_pct * (head_size : ℚ)⌋).toNat
  if num_attention_heads % numShards ≠ 0 then
    Except.error (PyErr.valueError headsDivisibilityMsg)
  else
    Except.ok
      { num_heads := num_attention_heads / numShards
        head_size := head_size
        rotary_dim := rotary_dim
        softmax_scale := invSqrtHeadSize }

/-- The scalar fields a Starcoder2Attention instance ends up with. -/
structure Starcoder2AttentionData where
  max_past : ℤ
  num_heads : ℕ
  head_size : ℕ
  softmax_scale : ℚ
  num_key_value_heads : ℕ
deriving DecidableEq

/-- The scalar part of `Starcoder2Attention.__init__`
(flash_starcoder2_modeling.py lines 176-226): `max_past`, head size and the
softmax scale are computed (lines 186-194), the shard divisibility is checked
(lines 196-200), then the per-shard head counts are taken.  `invSqrtHeadSize`
stands for the float `self.head_size**-0.5`. -/
def Starcoder2Attention.mkData (num_attention_heads num_key_value_heads
    hidden_size : ℕ) (sliding_window : Option ℤ) (invSqrtHeadSize : ℚ)
    (numShards : ℕ) : Except PyErr Starcoder2AttentionData :=
  let max_past : ℤ := match sliding_window with | some w => w | none => -1
  let head_size := hidden_size / num_attention_heads
  if num_attention_heads % numShards ≠ 0 then
    Except.error (PyErr.valueError headsDivisibilityMsg)
  else
    Except.ok
      { max_past := max_past
        num_heads := num_attention_heads / numShards
        head_size := head_size
        softmax_scale := invSqrtHeadSize
        num_key_value_heads := num_key_value_heads / numShards }

/-- The scalar fields a DeepseekV3MLP instance ends up with. -/
structure DeepseekV3MLPData where
  hidden_act : String
  intermediate_size : ℕ
deriving DecidableEq

/-- The activation check of `DeepseekV3MLP.__init__` (lines 421-447): any
configured activation other than "silu" raises NotImplementedError before any
weight is loaded; otherwise the per-shard intermediate size is recorded. -/
def DeepseekV3MLP.mkData (hidden_act : String) (intermediate_size numShards : ℕ) :
    Except PyErr DeepseekV3MLPData :=
  if hidden_act ≠ "silu" then
    Except.error (PyErr.notImplementedError
      "Currently only silu is supported as an activation for Deepseek V2.")
  else
    Except.ok { hidden_act := hidden_act, intermediate_size := intermediate_size / numShards }

/-- The configuration fields relevant to the eager checks of
`DeepseekV3Config.__init__`. -/
structure DeepseekV3ConfigData where
  tie_word_embeddings : Bool
  ep_size : ℤ
deriving DecidableEq

/-- Python `kwargs.pop(key, default)`: the value under `key` if present, else the
default, together with the dictionary without that key. -/
def kwargsPop (kwargs : List (String × Bool)) (key : String) (dflt : Bool) :
    Bool × List (String × Bool) :=
  match kwargs.find? (fun p => p.1 = key) with
  | some p => (p.2, kwargs.filter (fun q => q.1 ≠ key))
  | none => (dflt, kwargs)

/-- Constructor `DeepseekV3Config.__init__` (lines 61-163), reduced to the two eager
checks.  `tie_word_embeddings` is a declared keyword parameter of the
signature (line 98), so a caller passing it by name binds this parameter and
`kwargs` never contains the key; line 146 nevertheless rebinds the local name
from `kwargs.pop("tie_word_embeddings", False)`, discarding the parameter
value.  The embedding mirrors that: the declared parameter is received and
then ignored by the check, exactly as in the source. -/
def DeepseekV3Config.mkData (tie_word_embeddings : Bool) (ep_size : ℤ)
    (kwargs : List (String × Bool)) : Except PyErr DeepseekV3ConfigData :=
  let _ := tie_word_embeddings
  let t := (kwargsPop kwargs "tie_word_embeddings" false).1
  if t then
    Except.error (PyErr.valueError
      "tie_word_embeddings is not supported for Deepseek V2 models.")
  else if ep_size ≠ 1 then
    Except.error (PyErr.valueError
      "Currently only ep_size == 1 is supported for Deepseek V2 models")
  else
    Except.ok { tie_word_embeddings := t, ep_size := ep_size }

/-- The externally owned process group: its size, this worker's rank, and the
blocking all-reduce collective it supplies (kept abstract). -/
structure ProcessGroup where
  size : ℕ
  rank : ℕ
  allReduce : (n : ℕ) → Vec n → Vec n

/-- Contribution of an optional bias at one output coordinate. -/
def optApply {m : ℕ} (o : Option (Vec m)) (i : Fin m) : ℚ :=
  match o with
  | some b => b i
  | none => 0

/-- Modelled from the spec: the forward pass of the external
`TensorParallelRowLinear` layer — the per-rank linear result (bias included on
the ranks that hold one) followed by the sum-reduce collective when `reduce`
is set and the world size exceeds one. -/
def rowLinearForward (pg : ProcessGroup) {m n : ℕ} (W : Mat m n)
    (bias : Option (Vec m)) (x : Vec n) (reduce : Bool) : Vec m :=
  let y : Vec m := fun i => matVec W x i + optApply bias i
  if reduce ∧ pg.size > 1 then pg.allReduce m y else y

/-- Weights of one DeepseekV3MLP shard: the two halves of `gate_up_proj` and
the row-sharded `down_proj`. -/
structure MLPWeights (h inter : ℕ) where
  gateW : Mat inter h
  upW : Mat inter h
  downW : Mat h inter

/-- Method `DeepseekV3MLP.forward` (lines 452-457): the gated-linear unit
`down_proj(act(gate) * up)`, with the down projection's reduce flag passed
through.  `act` is the external `ACT2FN` activation. -/
def mlpForward (pg : ProcessGroup) {h inter : ℕ} (act : ℚ → ℚ)
    (W : MLPWeights h inter) (x : Vec h) (reduce : Bool) : Vec h :=
  rowLinearForward pg W.downW none
    (fun i => act (matVec W.gateW x i) * matVec W.upW x i) reduce

/-- Weights and collaborators of one DeepseekV3MoE module: the gate
(`FastLinear`), the external MoE layer (Sparse/DenseMoELayer, not under src/,
kept abstract), and the optional shared experts MLP. -/
structure MoEData (h nE inter : ℕ) where
  gateW : Mat nE h
  moeLayer : Vec h → Vec nE → Vec h
  sharedAct : ℚ → ℚ
  sharedW : Option (MLPWeights h inter)

/-- Method `DeepseekV3MoE.forward` (lines 512-529): shared experts without reduce,
gate logits, MoE layer, add the shared output, and all-reduce only when the
process group has more than one member. -/
def moeForward (pg : ProcessGroup) {h nE inter : ℕ} (M : MoEData h nE inter)
    (x : Vec h) : Vec h :=
  let shared_output : Option (Vec h) :=
    match M.sharedW with
    | some W => some (mlpForward pg M.sharedAct W x false)
    | none => none
  let router_logits := matVec M.gateW x
  let out := M.moeLayer x router_logits
  let out : Vec h :=
    match shared_output with
    | some s => fun i => out i + s i
    | none => out
  if pg.size > 1 then pg.allReduce h out else out

/-- The non-distributed MoE computation the spec compares against for world
size 1: the MoE layer output plus the shared-experts output, no communication
primitive in sight. -/
def moeForwardSeq {h nE inter : ℕ} (M : MoEData h nE inter) (x : Vec h) : Vec h :=
  let shared_output : Option (Vec h) :=
    match M.sharedW with
    | some W =>
      some (matVec W.downW (fun i => M.sharedAct (matVec W.gateW x i) * matVec W.upW x i))
    | none => none
  let out := M.moeLayer x (matVec M.gateW x)
  match shared_output with
  | some s => fun i => out i + s i
  | none => out

/-- The result of `load_row` (flash_neox_modeling.py lines 60-73): the row
shard of the weight, the bias held by this rank, and whether the layer was
wrapped in `TensorParallelRowLinear` (it is, unless
`config.use_parallel_residual`). -/
structure RowLinearData (m n : ℕ) where
  weight : Mat m n
  bias : Option (Vec m)
  wrapped : Bool

/-- Function `load_row` of flash_neox_modeling.py lines 60-73: the bias tensor is
attached only when `bias` is requested and this is the rank-0 process;
every other rank gets `None`. -/
def load_row (pg : ProcessGroup) {m n : ℕ} (use_parallel_residual : Bool)
    (weight : Mat m n) (bias : Bool) (biasTensor : Vec m) : RowLinearData m n :=
  let b : Option (Vec m) :=
    if bias ∧ pg.rank = 0 then some biasTensor else none
  { weight := weight, bias := b, wrapped := !use_parallel_residual }

/-- Modelled from the spec: the result the row-parallel linear produces across
the whole world — the collective sum of every rank's per-rank output (each
rank applies its shard and adds its own bias, if it holds one). -/
def rowParallelWorldOutput (s : ℕ) {m n : ℕ} (layers : Fin s → RowLinearData m n)
    (xs : Fin s → Vec n) : Vec m :=
  fun i => ∑ r, (matVec (layers r).weight (xs r) i + optApply (layers r).bias i)

/-- The observable docker operations of the `docker_launcher` context manager
of integration-tests/fixtures/gaudi/service.py. -/
inductive DockerAct where
  | stopExisting
  | removeExisting
  | createContainer
  | yieldHandle
  | stopC
  | waitC
  | logsC
  | removeC
deriving DecidableEq

/-- One run of the `docker_launcher` context manager, abstracted to what can
happen: a stale container with the test name may pre-exist (lines 189-201),
`client.containers.run` may raise (lines 231-240), the setup code between a
successful run and the yield may raise (lines 242-260), and the code using the
yielded handle may raise (line 262). -/
structure LaunchScenario where
  preExisting : Bool
  createSucceeds : Bool
  setupFails : Bool
  useFails : Bool

/-- The cleanup performed by the `finally` block at lines 271-286 when the
container is found: stop, wait, collect/print the logs, remove. -/
def cleanupActs : List DockerAct :=
  [DockerAct.stopC, DockerAct.waitC, DockerAct.logsC, DockerAct.removeC]

/-- Generator `docker_launcher` (service.py lines 160-286) as a state-free trace: the
result delivered to the caller (the start error re-raised at line 270, the
in-use exception propagated through the generator, or normal completion) and
the docker operations performed, in order.  The `finally` block (lines
271-286) looks the container up by name: when it exists, it is stopped, its
logs are collected, and it is removed; a `NotFound` (container never created)
is passed over without producing an error (lines 283-284). -/
def dockerLauncher (s : LaunchScenario) : Except String Unit × List DockerAct :=
  let pre : List DockerAct :=
    if s.preExisting then [DockerAct.stopExisting, DockerAct.removeExisting] else []
  if s.createSucceeds then
    if s.setupFails then
      (Except.error "Error starting container",
        pre ++ [DockerAct.createContainer] ++ cleanupActs)
    else if s.useFails then
      (Except.error "exception while container in use",
        pre ++ [DockerAct.createContainer, DockerAct.yieldHandle] ++ cleanupActs)
    else
      (Except.ok (),
        pre ++ [DockerAct.createContainer, DockerAct.yieldHandle] ++ cleanupActs)
  else
    (Except.error "Error starting container", pre ++ [DockerAct.createContainer])

/-- The result the launcher is specified to deliver: failures are fatal and
propagated, cleanup never masks them, normal completion returns cleanly. -/
def dockerLauncherSpecResult (s : LaunchScenario) : Except String Unit :=
  if s.createSucceeds then
    if s.setupFails then Except.error "Error starting container"
    else if s.useFails then Except.error "exception while container in use"
    else Except.ok ()
  else Except.error "Error starting container"

/-! ### Helper lemmas -/

theorem takeFirst_append {a b : ℕ} (u : Vec a) (v : Vec b) :
    takeFirst (Fin.append u v) = u :=
  funext fun i => Fin.append_left u v i

theorem dropFirst_append {a b : ℕ} (u : Vec a) (v : Vec b) :
    dropFirst (Fin.append u v) = v :=
  funext fun i => Fin.append_right u v i

/-- Bias contribution of a conditionally attached bias. -/
theorem optApply_ite {m : ℕ} (c : Prop) [Decidable c] (b : Vec m) (i : Fin m) :
    optApply (if c then some b else none) i = if c then b i else 0 := by
  by_cases hc : c <;> simp [hc, optApply]

/-- Reading back a zero-padded vector below the original width returns the
original component. -/
theorem padZero_castLE {d m : ℕ} (v : Vec d) (hdm : d ≤ m) (j : Fin d) :
    padZero v m (Fin.castLE hdm j) = v j := by
  unfold padZero
  rw [dif_pos]
  · exact congrArg v (Fin.eta j j.isLt)

/-- Softmax cancellation: a single weighted entry divided by its own weight. -/
theorem single_weight_cancel {e : ℚ → ℚ} (he : ∀ x, e x ≠ 0) (s x : ℚ) :
    e s * x / e s = x :=
  mul_div_cancel_left₀ x (he s)

/-- Dense attention over a single token is the (padded) value of that token. -/
theorem denseAttention_single {n d : ℕ} (e : ℚ → ℚ) (he : ∀ x, e x ≠ 0)
    (scale : ℚ) (q k v : Fin 1 → Fin n → Vec d) (h : Fin n) (j : Fin d) :
    denseAttention e scale q k v 0 h j = v 0 h j := by
  unfold denseAttention
  rw [Fin.sum_univ_one, Fin.sum_univ_one, if_pos (le_refl (0 : Fin 1)),
    if_pos (le_refl (0 : Fin 1)), single_weight_cancel he]

/-- Paged MLA attention against a single cached latent returns the compressed
value part of that latent. -/
theorem pagedAttentionMla_single {n L rope : ℕ} (e : ℚ → ℚ) (he : ∀ x, e x ≠ 0)
    (scale : ℚ) (q : Fin n → Vec (L + rope)) (c : Vec (L + rope))
    (h : Fin n) (j : Fin L) :
    pagedAttentionMla e scale q [c] h j = c (Fin.castAdd rope j) := by
  unfold pagedAttentionMla
  rw [List.map_singleton, List.map_singleton, List.sum_singleton,
    List.sum_singleton, single_weight_cancel he]

/-- The value up-projection commutes with splitting `kv_b_proj`: the value
part of the reconstructed kv equals the latent multiplied by `W_UV`. -/
theorem kv_b_value_eq_W_UV (D : MLADims)
    (kvB : Fin D.heads → Mat (D.nope + D.vDim) D.loraRank)
    (c : Vec D.loraRank) (h : Fin D.heads) (j : Fin D.vDim) :
    dropFirst (matVec (kvB h) c) j = ∑ l, c l * W_UV D kvB h l j := by
  unfold dropFirst matVec dot W_UV
  exact Finset.sum_congr rfl fun l _ => mul_comm _ _

/-- On a single token the dense prefill attention collapses to the value
reconstructed from the latent: the softmax over the one causal position has
weight one, and the value padding is discarded by the truncation. -/
theorem prefillBranch_single (D : MLADims) (W : MLAWeights D) (e : ℚ → ℚ)
    (he : ∀ x, e x ≠ 0) (cn : Fin 1 → Vec D.loraRank)
    (qF : Fin 1 → Fin D.heads → Vec (D.nope + D.rope))
    (qpe : Fin 1 → Fin D.heads → Vec D.rope) (kper : Fin 1 → Vec D.rope) :
    prefillBranch D W e 1 cn qF qpe kper = fun i =>
      matVec W.oProjW (flattenHeads (fun h j =>
        dropFirst (matVec (W.kvBProjW h) (cn i)) j)) := by
  funext i
  have hi : i = 0 := Subsingleton.elim i 0
  subst hi
  simp only [prefillBranch]
  apply congrArg (matVec W.oProjW)
  apply congrArg flattenHeads
  funext h j
  rw [denseAttention_single e he, padZero_castLE]

/-- On a single token with a one-entry cache, the decode branch collapses to
the value up-projection of the cached compressed latent. -/
theorem decodeBranch_single (D : MLADims) (W : MLAWeights D) (e : ℚ → ℚ)
    (he : ∀ x, e x ≠ 0) (hqc : Fin 1 → Vec D.qdim)
    (qpe : Fin 1 → Fin D.heads → Vec D.rope) (c : Vec (D.loraRank + D.rope)) :
    decodeBranch D W e 1 hqc qpe [c] = fun _ =>
      v_up_proj_and_o_proj D W (fun _ => takeFirst c) := by
  funext i
  have hi : i = 0 := Subsingleton.elim i 0
  subst hi
  simp only [decodeBranch]
  apply congrArg (v_up_proj_and_o_proj D W)
  funext h l
  rw [pagedAttentionMla_single e he]
  rfl

/-- C1: for a single-token sequence with no prior cache contents, the prefill
path of `DeepseekV3Attention.forward` (explicit `kv_b_proj` reconstruction of
full keys/values, padded dense attention, then `o_proj`) and the decode path
(query down-projected through `W_UK_T`, paged attention against the
compressed latent, value up-projection via `W_UV`, then `o_proj`) produce
the same output: the value up-projection is linear and commutes with the
attention-weighted sum. -/
theorem prefill_decode_equivalent_single_token (D : MLADims) (W : MLAWeights D)
    (e : ℚ → ℚ) (rot : ℕ → Vec D.rope → Vec D.rope) (h : Fin 1 → Vec D.hidden)
    (he : ∀ x, e x ≠ 0) :
    (attnForward D W e rot 1 h true []).output =
    (attnForward D W e rot 1 h false []).output := by
  have hp : (attnForward D W e rot 1 h true []).output =
      prefillBranch D W e 1
        (fun i => W.kv_a_layernorm (takeFirst (matVec W.kvAProjW (h i))))
        (fun i h' => matVec (W.qProjW h') (W.qPipe (h i)))
        (fun i h' => rot (0 + (i : ℕ))
          (interleaveHalves (dropFirst (matVec (W.qProjW h') (W.qPipe (h i))))))
        (fun i => rot (0 + (i : ℕ))
          (interleaveHalves (dropFirst (matVec W.kvAProjW (h i))))) := rfl
  have hq : (attnForward D W e rot 1 h false []).output =
      decodeBranch D W e 1 (fun i => W.qPipe (h i))
        (fun i h' => rot (0 + (i : ℕ))
          (interleaveHalves (dropFirst (matVec (W.qProjW h') (W.qPipe (h i))))))
        (([] : List (Vec (D.loraRank + D.rope))) ++ List.ofFn (fun i : Fin 1 =>
          Fin.append (W.kv_a_layernorm (takeFirst (matVec W.kvAProjW (h i))))
            (rot (0 + (i : ℕ))
              (interleaveHalves (dropFirst (matVec W.kvAProjW (h i))))))) := rfl
  have hcache : (([] : List (Vec (D.loraRank + D.rope))) ++ List.ofFn (fun i : Fin 1 =>
      Fin.append (W.kv_a_layernorm (takeFirst (matVec W.kvAProjW (h i))))
        (rot (0 + (i : ℕ))
          (interleaveHalves (dropFirst (matVec W.kvAProjW (h i))))))) =
      [Fin.append (W.kv_a_layernorm (takeFirst (matVec W.kvAProjW (h 0))))
        (rot (0 + ((0 : Fin 1) : ℕ))
          (interleaveHalves (dropFirst (matVec W.kvAProjW (h 0)))))] := by
    simp [List.ofFn_succ, List.ofFn_zero]
  rw [hp, hq, hcache]
  rw [prefillBranch_single D W e he, decodeBranch_single D W e he]
  funext i
  have hi : i = 0 := Subsingleton.elim i 0
  subst hi
  simp only [takeFirst_append]
  unfold v_up_proj_and_o_proj
  apply congrArg (matVec W.oProjW)
  apply congrArg flattenHeads
  funext hh j
  exact kv_b_value_eq_W_UV D W.kvBProjW
    (W.kv_a_layernorm (takeFirst (matVec W.kvAProjW (h 0)))) hh j

/-- C2: `DeepseekV3Attention` computes `softmax_scale = head_size^-0.5 *
mscale^2` at construction (line 189; `invS` stands for the float
`head_size**-0.5`, characterized by `invS * invS * head_size = 1`, and
`mscale` for the rotary-scaling correction factor), and the identical scale
value is handed to the dense prefill kernel and to the paged decode kernel. -/
theorem softmax_scale_formula_and_shared_between_paths (D : MLADims)
    (W : MLAWeights D) (e : ℚ → ℚ) (rot : ℕ → Vec D.rope → Vec D.rope)
    (B : ℕ) (h : Fin B → Vec D.hidden) (pc : List (Vec (D.loraRank + D.rope)))
    (invS mscale : ℚ)
    (hW : W.softmaxScale = mkSoftmaxScale invS mscale)
    (hinv : invS * invS * (headSize D.nope D.rope : ℚ) = 1) :
    (attnForward D W e rot B h true pc).scaleUsed = W.softmaxScale ∧
    (attnForward D W e rot B h false pc).scaleUsed = W.softmaxScale ∧
    W.softmaxScale * W.softmaxScale * (headSize D.nope D.rope : ℚ) =
      mscale ^ 4 := by
  refine ⟨rfl, rfl, ?_⟩
  rw [hW]
  unfold mkSoftmaxScale
  linear_combination (mscale ^ 4) * hinv

/-- C3: on every call to `DeepseekV3Attention.forward` (prefill and decode
alike), the entry written to the KV cache is the concatenation of the
RMS-normalized compressed key/value latent (width `kv_lora_rank`) with the
rotary-encoded key subspace (width `qk_rope_head_dim`), and the `value`
argument passed to `kv_cache.store` is `None`; full keys and values are never
written to the cache. -/
theorem attn_store_latent_concat_and_value_none (D : MLADims)
    (W : MLAWeights D) (e : ℚ → ℚ) (rot : ℕ → Vec D.rope → Vec D.rope)
    (B : ℕ) (h : Fin B → Vec D.hidden) (flag : Bool)
    (pc : List (Vec (D.loraRank + D.rope))) :
    (attnForward D W e rot B h flag pc).store =
      { keys := List.ofFn (fun i : Fin B =>
          Fin.append (W.kv_a_layernorm (takeFirst (matVec W.kvAProjW (h i))))
            (rot (pc.length + (i : ℕ))
              (interleaveHalves (dropFirst (matVec W.kvAProjW (h i))))))
        values := none } := by
  cases flag <;> rfl

/-- C4: `head_size` equals `qk_nope_head_dim + qk_rope_head_dim` (both as the
line-181 definition and on every successfully constructed instance), and in
the prefill path the query, key, and value tensors handed to the dense
attention kernel all have the same last-dimension width `head_pad_size =
max(head_size, v_head_dim)`, achieved by zero-padding query/key by
`head_pad_size - head_size` and value by `head_pad_size - v_head_dim`. -/
theorem head_size_split_and_padded_widths_match (nope rope v nAH nKV : ℕ)
    (invS m : ℚ) (s : ℕ) (d : DeepseekV3AttentionData) :
    (headSize nope rope = nope + rope ∧
     headPadSize nope rope v = max (headSize nope rope) v ∧
     paddedQueryWidth nope rope v = headPadSize nope rope v ∧
     paddedKeyWidth nope rope v = headPadSize nope rope v ∧
     paddedValueWidth nope rope v = headPadSize nope rope v) ∧
    (DeepseekV3Attention.mkData nAH nKV nope rope v invS m s = Except.ok d →
      d.head_size = nope + rope ∧ d.head_pad_size = headPadSize nope rope v) := by
  constructor
  · refine ⟨rfl, rfl, ?_, ?_, ?_⟩ <;>
      simp only [paddedQueryWidth, paddedKeyWidth, paddedValueWidth,
        headPadSize, headSize] <;> omega
  · intro hok
    unfold DeepseekV3Attention.mkData at hok
    by_cases hdiv : nAH % s ≠ 0
    · rw [if_pos hdiv] at hok
      simp at hok
    · rw [if_neg hdiv] at hok
      simp only [Except.ok.injEq] at hok
      subst hok
      exact ⟨rfl, rfl⟩

/-- C5: constructing `DeepseekV3Attention`, `FlashNeoxAttention` or
`Starcoder2Attention` with a configured head count not divisible by the
process-group size raises a `ValueError` at construction time, so no forward
pass can be attempted with such a configuration. -/
theorem heads_not_divisible_by_shards_raises (nAH nKV nope rope v : ℕ)
    (hiddenN hiddenS : ℕ) (invS m rpct invN invS2 : ℚ) (sw : Option ℤ)
    (s : ℕ) (hdiv : nAH % s ≠ 0) :
    DeepseekV3Attention.mkData nAH nKV nope rope v invS m s =
      Except.error (PyErr.valueError headsDivisibilityMsg) ∧
    FlashNeoxAttention.mkData nAH hiddenN rpct invN s =
      Except.error (PyErr.valueError headsDivisibilityMsg) ∧
    Starcoder2Attention.mkData nAH nKV hiddenS sw invS2 s =
      Except.error (PyErr.valueError headsDivisibilityMsg) := by
  refine ⟨?_, ?_, ?_⟩ <;>
    simp [DeepseekV3Attention.mkData, FlashNeoxAttention.mkData,
      Starcoder2Attention.mkData, hdiv]

/-- C6: constructing a `DeepseekV3MLP` with any configured hidden activation
other than "silu" raises `NotImplementedError` at construction. -/
theorem mlp_non_silu_activation_raises (act : String) (inter s : ℕ)
    (hact : act ≠ "silu") :
    DeepseekV3MLP.mkData act inter s = Except.error (PyErr.notImplementedError
      "Currently only silu is supported as an activation for Deepseek V2.") := by
  simp [DeepseekV3MLP.mkData, hact]

/-- C7 (counterevidence): the `tie_word_embeddings` rejection of
`DeepseekV3Config.__init__` can never fire.  `tie_word_embeddings` is a
declared keyword parameter, so a caller passing `tie_word_embeddings=True`
binds the parameter and `kwargs` stays empty; line 146 then re-reads the flag
from `kwargs.pop`, obtains the default `False`, and the constructor returns
normally with the flag silently forced to `False`.  The `ep_size != 1` check,
by contrast, does raise. -/
theorem config_tie_word_embeddings_check_unreachable :
    DeepseekV3Config.mkData true 1 [] =
      Except.ok { tie_word_embeddings := false, ep_size := 1 } ∧
    DeepseekV3Config.mkData false 2 [] =
      Except.error (PyErr.valueError
        "Currently only ep_size == 1 is supported for Deepseek V2 models") :=
  ⟨rfl, rfl⟩

/-- C8: when the process-group size is 1, `DeepseekV3MoE.forward` performs no
distributed reduce (the `all_reduce` branch is not taken, whatever the
collective would do) and its output equals the non-distributed computation on
the same input and weights: the MoE layer output plus the shared-experts
output, with no communication. -/
theorem moe_forward_world_size_one_no_reduce {h nE inter : ℕ}
    (pg : ProcessGroup) (M : MoEData h nE inter) (x : Vec h)
    (hpg : pg.size = 1) :
    moeForward pg M x = moeForwardSeq M x := by
  unfold moeForward moeForwardSeq mlpForward rowLinearForward
  rcases hM : M.sharedW with _ | Wsh <;>
    simp [hM, hpg, optApply]

/-- C9: the `docker_launcher` context manager delivers the body's outcome
unchanged on every exit path (normal completion, container-start failure, and
any exception raised while the container is in use); its `finally` block
performs exactly the stop / wait / collect-logs / remove sequence, as the
final actions, whenever the container exists, and performs no cleanup action
and raises no new error when the container was never created (`NotFound` is
tolerated). -/
theorem docker_launcher_cleanup_on_all_exit_paths (s : LaunchScenario) :
    (dockerLauncher s).1 = dockerLauncherSpecResult s ∧
    List.isSuffixOf (if s.createSucceeds then cleanupActs else [])
      (dockerLauncher s).2 = true ∧
    (dockerLauncher s).2.filter (fun a => decide (a ∈ cleanupActs)) =
      (if s.createSucceeds then cleanupActs else []) := by
  rcases s with ⟨p, c, st, u⟩
  cases p <;> cases c <;> cases st <;> cases u <;> exact ⟨rfl, by decide, by decide⟩

/-- C10: `load_row` with `bias=True` attaches the bias tensor only on the
process-group rank-0 shard (every other rank gets `None`), so the cross-shard
sum performed by the row-parallel linear adds the bias exactly once to the
result, regardless of world size. -/
theorem load_row_bias_only_rank_zero_added_once {m n : ℕ} (s : ℕ)
    (hs : 0 < s) (upr : Bool) (Ws : Fin s → Mat m n) (bt : Vec m)
    (xs : Fin s → Vec n) (r : Fin s) :
    (load_row ⟨s, (r : ℕ), fun _ v => v⟩ upr (Ws r) true bt).bias =
      (if (r : ℕ) = 0 then some bt else none) ∧
    rowParallelWorldOutput s
        (fun q => load_row ⟨s, (q : ℕ), fun _ v => v⟩ upr (Ws q) true bt) xs =
      fun i => (∑ q, matVec (Ws q) (xs q) i) + bt i := by
  constructor
  · simp [load_row]
  · funext i
    unfold rowParallelWorldOutput
    have hterm : ∀ q : Fin s,
        matVec (load_row ⟨s, (q : ℕ), fun _ v => v⟩ upr (Ws q) true bt).weight
            (xs q) i +
          optApply (load_row ⟨s, (q : ℕ), fun _ v => v⟩ upr (Ws q) true bt).bias
            i =
        matVec (Ws q) (xs q) i +
          (if q = (⟨0, hs⟩ : Fin s) then bt i else 0) := by
      intro q
      simp [load_row, optApply_ite, Fin.ext_iff]
    rw [Finset.sum_congr rfl (fun q _ => hterm q), Finset.sum_add_distrib,
      Finset.sum_ite_eq' Finset.univ (⟨0, hs⟩ : Fin s) (fun _ => bt i)]
    simp

/-! ### Concrete instantiations -/

/-- Tiny concrete attention dimensions. -/
def exDims : MLADims :=
  { hidden := 1, loraRank := 1, nope := 2, rope := 2, vDim := 1, heads := 1, qdim := 1 }

/-- Concrete weights over `exDims`. -/
def exWeights : MLAWeights exDims where
  qPipe := fun v => v
  qProjW := fun _ _ _ => 1
  kvAProjW := fun _ _ => 1
  kv_a_layernorm := fun v => v
  kvBProjW := fun _ _ _ => 1
  oProjW := fun _ _ => 1
  softmaxScale := mkSoftmaxScale (1 / 2) 1

/-- A rotary kernel instance (identity rotation). -/
def exRot : ℕ → Vec exDims.rope → Vec exDims.rope := fun _ v => v

/-- A concrete single-token hidden state. -/
def exHidden : Fin 1 → Vec exDims.hidden := fun _ _ => 1

/-- A concrete (everywhere nonzero) stand-in for the softmax exponential. -/
def exExp : ℚ → ℚ := fun _ => 1

/-- Witness for C1 at concrete dimensions, weights and input. -/
theorem prefill_decode_equivalent_single_token_witness :
    (attnForward exDims exWeights exExp exRot 1 exHidden true []).output =
    (attnForward exDims exWeights exExp exRot 1 exHidden false []).output :=
  prefill_decode_equivalent_single_token exDims exWeights exExp exRot exHidden
    (fun _ => one_ne_zero)

/-- Witness for C2 at concrete dimensions and weights (head size 4, so the
float `head_size**-0.5` is exactly 1/2). -/
theorem softmax_scale_formula_and_shared_between_paths_witness :
    (attnForward exDims exWeights exExp exRot 1 exHidden true []).scaleUsed =
      exWeights.softmaxScale ∧
    (attnForward exDims exWeights exExp exRot 1 exHidden false []).scaleUsed =
      exWeights.softmaxScale ∧
    exWeights.softmaxScale * exWeights.softmaxScale *
      (headSize exDims.nope exDims.rope : ℚ) = 1 ^ 4 :=
  softmax_scale_formula_and_shared_between_paths exDims exWeights exExp exRot
    1 exHidden [] (1 / 2) 1 rfl (by norm_num [headSize, exDims])

/-- Witness for C4 at a concrete configuration. -/
theorem head_size_split_and_padded_widths_match_witness :
    (headSize 2 2 = 2 + 2 ∧
     headPadSize 2 2 1 = max (headSize 2 2) 1 ∧
     paddedQueryWidth 2 2 1 = headPadSize 2 2 1 ∧
     paddedKeyWidth 2 2 1 = headPadSize 2 2 1 ∧
     paddedValueWidth 2 2 1 = headPadSize 2 2 1) ∧
    ({ num_heads := 2, head_size := 4, head_pad_size := 4,
        softmax_scale := mkSoftmaxScale 0 0,
        num_key_value_heads := 2 } : DeepseekV3AttentionData).head_size = 2 + 2 ∧
    ({ num_heads := 2, head_size := 4, head_pad_size := 4,
        softmax_scale := mkSoftmaxScale 0 0,
        num_key_value_heads := 2 } : DeepseekV3AttentionData).head_pad_size =
      headPadSize 2 2 1 :=
  ⟨(head_size_split_and_padded_widths_match 2 2 1 2 2 0 0 1
      { num_heads := 2, head_size := 4, head_pad_size := 4,
        softmax_scale := mkSoftmaxScale 0 0, num_key_value_heads := 2 }).1,
   (head_size_split_and_padded_widths_match 2 2 1 2 2 0 0 1
      { num_heads := 2, head_size := 4, head_pad_size := 4,
        softmax_scale := mkSoftmaxScale 0 0, num_key_value_heads := 2 }).2 (by rfl)⟩

/-- Witness for C5: three heads cannot be split over two shards. -/
theorem heads_not_divisible_by_shards_raises_witness :
    DeepseekV3Attention.mkData 3 3 2 2 1 0 0 2 =
      Except.error (PyErr.valueError headsDivisibilityMsg) ∧
    FlashNeoxAttention.mkData 3 12 1 0 2 =
      Except.error (PyErr.valueError headsDivisibilityMsg) ∧
    Starcoder2Attention.mkData 3 3 12 none 0 2 =
      Except.error (PyErr.valueError headsDivisibilityMsg) :=
  heads_not_divisible_by_shards_raises 3 3 2 2 1 12 12 0 0 1 0 0 none 2 (by decide)

/-- Witness for C6 at the activation "gelu". -/
theorem mlp_non_silu_activation_raises_witness :
    DeepseekV3MLP.mkData "gelu" 1 1 = Except.error (PyErr.notImplementedError
      "Currently only silu is supported as an activation for Deepseek V2.") :=
  mlp_non_silu_activation_raises "gelu" 1 1 (by decide)

/-- A process group of size one whose collective, if it were ever invoked,
would zero its argument out. -/
def exPG : ProcessGroup := { size := 1, rank := 0, allReduce := fun _ _ => fun _ => 0 }

/-- A concrete MoE module with shared experts. -/
def exMoE : MoEData 1 1 1 :=
  { gateW := fun _ _ => 1
    moeLayer := fun x g i => x i * g i
    sharedAct := fun q => q + 1
    sharedW := some { gateW := fun _ _ => 1, upW := fun _ _ => 1, downW := fun _ _ => 1 } }

/-- Witness for C8: with world size one the destructive collective of `exPG`
is never consulted. -/
theorem moe_forward_world_size_one_no_reduce_witness :
    moeForward exPG exMoE (fun _ => 1) = moeForwardSeq exMoE (fun _ => 1) :=
  moe_forward_world_size_one_no_reduce exPG exMoE (fun _ => 1) rfl

/-- A concrete one-by-one weight shard. -/
def exRow : Mat 1 1 := fun _ _ => 1

/-- A concrete bias tensor. -/
def exBias : Vec 1 := fun _ => 1

/-- Witness for C10 at world size two. -/
theorem load_row_bias_only_rank_zero_added_once_witness :
    (load_row ⟨2, ((0 : Fin 2) : ℕ), fun _ v => v⟩ true exRow true exBias).bias =
      (if ((0 : Fin 2) : ℕ) = 0 then some exBias else none) ∧
    rowParallelWorldOutput 2
        (fun q : Fin 2 => load_row ⟨2, (q : ℕ), fun _ v => v⟩ true exRow true exBias)
        (fun _ => exBias) =
      fun i => (∑ _q : Fin 2, matVec exRow exBias i) + exBias i :=
  load_row_bias_only_rank_zero_added_once 2 (by decide) true (fun _ => exRow)
    exBias (fun _ => exBias) 0

end TGI
